import Mathlib

/-!
Verification of the TikTok channel validator (src/tiktok_channel_validator.py).

Shallow embedding: the browser-facing effects of one probe attempt are
captured by an `AttemptEnv` describing what the environment does on that
attempt (whether driver setup succeeds, whether `driver.get` raises, and
what each of the two `WebDriverWait` calls yields).  Fallible Python code
is embedded as `Except String` values: `Except.error msg` models an
uncaught Python exception carrying message `msg`.

The functions keep the names of the Python functions they embed:
`validate_tiktok_channel_single_attempt`, `validate_tiktok_channel`,
`read_csv`, `read_existing_results`, `write_sorted_csv`,
`validate_csv_channels`.
-/

/-- Result of one `WebDriverWait(...).until(...)` call in the source:
the element is found and its `.text` read, the wait times out
(`TimeoutException`), or some other exception is raised during the
fetch/wait/inspection. -/
inductive WaitRes where
  | found (text : String)
  | timedOut
  | raised (msg : String)
deriving DecidableEq

/-- The environment one single probe attempt runs against: whether
`setup_chrome_driver` succeeds, whether `driver.get` raises, and the
results of the two waits (rule 1: error container; rule 2: user title). -/
structure AttemptEnv where
  setupOk : Bool
  setupMsg : String
  getRes : Option String
  rule1 : WaitRes
  rule2 : WaitRes
deriving DecidableEq

/-- The dictionary returned by `validate_tiktok_channel_single_attempt`. -/
structure AttemptResult where
  status : String
  message : String
  is_valid : Option Bool
  rule_matched : String
deriving DecidableEq

/-- Lowercasing, embedding Python `str.lower()` on the ASCII range
(the absence phrase and the claims only involve ASCII text). -/
def strLower (s : String) : String :=
  String.mk (s.data.map Char.toLower)

/-- List-level matching of a pattern at the head of a list. -/
def leadsWith : List Char → List Char → Bool
  | [], _ => true
  | _ :: _, [] => false
  | a :: as, b :: bs => a == b && leadsWith as bs

/-- List-level substring containment. -/
def containsSub (pat : List Char) : List Char → Bool
  | [] => pat.isEmpty
  | c :: rest => leadsWith pat (c :: rest) || containsSub pat rest

/-- Embeds the Python `in` operator on strings: `pat in s`. -/
def strContains (s pat : String) : Bool :=
  containsSub pat.data s.data

/-- The fixed absence phrase checked by rule 1 of the prober. -/
def absencePhrase : String := "couldn\x27t find this account"

/-- The rule-1 (INVALID) dictionary from the source. -/
def invalidResult (t : String) : AttemptResult :=
  { status := "❌ INVALID",
    message := "Account not found: \x27" ++ t ++ "\x27",
    is_valid := some false,
    rule_matched := "INVALID_RULE" }

/-- The rule-2 (VALID) dictionary from the source. -/
def validResult (t : String) : AttemptResult :=
  { status := "✅ VALID",
    message := "Username title found: \x27" ++ t ++ "\x27",
    is_valid := some true,
    rule_matched := "VALID_RULE" }

/-- The neither-rule-matched dictionary from the source. -/
def noMatchResult : AttemptResult :=
  { status := "❓ NO_MATCH",
    message := "Neither valid nor invalid rule matched",
    is_valid := none,
    rule_matched := "NONE" }

/-- The `except Exception` dictionary from the source. -/
def errorResult (msg : String) : AttemptResult :=
  { status := "⚠️ ERROR",
    message := "Error: " ++ msg,
    is_valid := none,
    rule_matched := "ERROR" }

/-- RULE 2 of the single attempt: wait for the `user-title` element with
the main timeout; a `TimeoutException` falls through to the NO_MATCH
return, any other exception reaches the outer `except Exception`. -/
def rule2Check (env : AttemptEnv) : AttemptResult :=
  match env.rule2 with
  | WaitRes.found t => validResult t
  | WaitRes.timedOut => noMatchResult
  | WaitRes.raised msg => errorResult msg

/-- The body of the `try:` in `validate_tiktok_channel_single_attempt`:
`driver.get`, then RULE 1 (error container, absence phrase checked
case-insensitively; a miss or a `TimeoutException` falls through to
RULE 2), with any non-timeout exception absorbed by the outer
`except Exception` into the ERROR dictionary. -/
def attemptBody (env : AttemptEnv) : AttemptResult :=
  match env.getRes with
  | some msg => errorResult msg
  | none =>
    match env.rule1 with
    | WaitRes.raised msg => errorResult msg
    | WaitRes.timedOut => rule2Check env
    | WaitRes.found t =>
      if strContains (strLower t) absencePhrase then invalidResult t
      else rule2Check env

/-- One browser session event of an attempt. -/
inductive SessionEvent where
  | opened
  | released
deriving DecidableEq, BEq

/-- `validate_tiktok_channel_single_attempt` together with its browser
session trace.  `driver = setup_chrome_driver()` runs before the `try:`,
so a setup failure propagates as an exception (`Except.error`) with no
session opened; once setup succeeds the `try/except Exception/finally`
always produces a result dictionary and `driver.quit()` runs on every
exit path. -/
def validate_tiktok_channel_single_attempt_run (env : AttemptEnv) :
    Except String AttemptResult × List SessionEvent :=
  if env.setupOk then
    (Except.ok (attemptBody env), [SessionEvent.opened, SessionEvent.released])
  else
    (Except.error env.setupMsg, [])

/-- The value (or exception) of one call of
`validate_tiktok_channel_single_attempt`. -/
def validate_tiktok_channel_single_attempt (env : AttemptEnv) :
    Except String AttemptResult :=
  (validate_tiktok_channel_single_attempt_run env).1

/-- The browser session trace of one call of
`validate_tiktok_channel_single_attempt`. -/
def single_attempt_sessions (env : AttemptEnv) : List SessionEvent :=
  (validate_tiktok_channel_single_attempt_run env).2

/-- The dictionary returned by `validate_tiktok_channel`. -/
structure Resolution where
  username : String
  url : String
  status : String
  message : String
  is_valid : Option Bool
deriving DecidableEq

/-- The `status_map` dictionary lookup (with default value) of
`validate_tiktok_channel`. -/
def status_map (s : String) : String :=
  if s = "✅ VALID" then "valid"
  else if s = "❌ INVALID" then "invalid"
  else if s = "❓ UNDEFINED" then "undefined"
  else "undefined"

/-- Packaging of a definitive attempt result into the returned dictionary
of `validate_tiktok_channel`. -/
def resolutionOf (username url : String) (r : AttemptResult) : Resolution :=
  { username := username, url := url, status := status_map r.status,
    message := r.message, is_valid := r.is_valid }

/-- The membership test `result["rule_matched"] in ["VALID_RULE", "INVALID_RULE"]`. -/
def isDefinitiveResult (r : AttemptResult) : Bool :=
  r.rule_matched = "VALID_RULE" ∨ r.rule_matched = "INVALID_RULE"

/-- The retry loop `for attempt in range(1, max_attempts + 1)` of
`validate_tiktok_channel`, run over the list of attempt indices; also
counts the probe calls made.  A definitive attempt returns at once;
an exception escaping the probe propagates. -/
def runAttempts (username url : String) (envs : Nat → AttemptEnv) :
    List Nat → Except String (Option Resolution) × Nat
  | [] => (Except.ok none, 0)
  | a :: rest =>
    match validate_tiktok_channel_single_attempt (envs a) with
    | Except.error e => (Except.error e, 1)
    | Except.ok r =>
      if isDefinitiveResult r then
        (Except.ok (some (resolutionOf username url r)), 1)
      else
        let p := runAttempts username url envs rest
        (p.1, p.2 + 1)

/-- `validate_tiktok_channel`: retries up to `max_attempts` times and
falls back to the undefined resolution when the loop exhausts.  The
second component is the number of probe calls made. -/
def validate_tiktok_channel (username url : String) (envs : Nat → AttemptEnv)
    (max_attempts : Nat) : Except String Resolution × Nat :=
  let p := runAttempts username url envs (List.range' 1 max_attempts)
  match p.1 with
  | Except.error e => (Except.error e, p.2)
  | Except.ok (some res) => (Except.ok res, p.2)
  | Except.ok none =>
    (Except.ok { username := username, url := url, status := "undefined",
                 message := "No definitive result after " ++ toString max_attempts
                   ++ " attempts",
                 is_valid := none }, p.2)

/-- Is the classified outcome of an attempt INDEFINITE (NO_MATCH) or
FAULTED (ERROR)?  An uncaught exception is neither. -/
def isIndefiniteOrFaulted : Except String AttemptResult → Bool
  | Except.ok r => r.rule_matched = "NONE" ∨ r.rule_matched = "ERROR"
  | Except.error _ => false

/-- Is the classified outcome of an attempt definitive? -/
def isDefinitiveOutcome : Except String AttemptResult → Bool
  | Except.ok r => isDefinitiveResult r
  | Except.error _ => false

/-- Status projection of the controller result. -/
def okStatus : Except String Resolution → Option String
  | Except.ok r => some r.status
  | Except.error _ => none

def envIndef : AttemptEnv :=
  { setupOk := true, setupMsg := "", getRes := none,
    rule1 := WaitRes.timedOut, rule2 := WaitRes.timedOut }

def envFault : AttemptEnv :=
  { setupOk := true, setupMsg := "", getRes := some ("net::ERR_CONNECTION_RESET"),
    rule1 := WaitRes.timedOut, rule2 := WaitRes.timedOut }

def envValidAcct : AttemptEnv :=
  { setupOk := true, setupMsg := "", getRes := none,
    rule1 := WaitRes.timedOut, rule2 := WaitRes.found ("Acct One") }

def envSetupFail : AttemptEnv :=
  { setupOk := false, setupMsg := "chrome driver failed to start", getRes := none,
    rule1 := WaitRes.timedOut, rule2 := WaitRes.timedOut }

def envsC1 : Nat → AttemptEnv := fun i => if i ≤ 2 then envIndef else envValidAcct

def okMessage : Except String Resolution → Option String
  | Except.ok r => some r.message
  | Except.error _ => none

def envsC2 : Nat → AttemptEnv :=
  fun i => if i = 1 then envFault else if i = 2 then envIndef else envValidAcct

def envBothMarkers : AttemptEnv :=
  { setupOk := true, setupMsg := "", getRes := none,
    rule1 := WaitRes.found ("Sorry. Couldn\x27T FIND This Account!"),
    rule2 := WaitRes.found ("Some Title") }

structure CsvRow where
  username : String
  profile_url : String
  status : Option String
deriving DecidableEq

def rowStatusNonEmpty (row : CsvRow) : Bool :=
  match row.status with
  | some s => !(s = "")
  | none => false

def read_csv (inputFile : Option (List CsvRow)) : List CsvRow :=
  match inputFile with
  | none => []
  | some rows => rows

def read_existing_results (rows : List CsvRow) : String → Option CsvRow :=
  rows.foldl
    (fun m row =>
      if rowStatusNonEmpty row then
        fun k => if k = row.username then some row else m k
      else m)
    (fun _ => none)

def splitChannels (processed : String → Option CsvRow) :
    List CsvRow → List CsvRow × List CsvRow
  | [] => ([], [])
  | channel :: rest =>
    let p := splitChannels processed rest
    match processed channel.username with
    | some prow => ({ channel with status := some (prow.status.getD ("")) } :: p.1, p.2)
    | none => (channel :: p.1, channel :: p.2)

def updateFirst : List CsvRow → String → String → List CsvRow
  | [], _, _ => []
  | ch :: rest, u, s =>
    if ch.username = u then { ch with status := some s } :: rest
    else ch :: updateFirst rest u s

def processLoop (envsFor : String → Nat → AttemptEnv) (max_attempts : Nat) :
    List CsvRow → List CsvRow → Except String (List CsvRow)
  | all, [] => Except.ok all
  | all, c :: rest =>
    match (validate_tiktok_channel c.username c.profile_url
        (envsFor c.username) max_attempts).1 with
    | Except.error e => Except.error e
    | Except.ok res =>
      processLoop envsFor max_attempts (updateFirst all c.username res.status) rest

def statusOrderKey (s : String) : Nat :=
  if s = "valid" then 1
  else if s = "undefined" then 2
  else if s = "invalid" then 3
  else 3

def channelKey (c : CsvRow) : Nat := statusOrderKey (c.status.getD ("undefined"))

def orderedInsert (a : CsvRow) : List CsvRow → List CsvRow
  | [] => [a]
  | b :: l => if channelKey a ≤ channelKey b then a :: b :: l else b :: orderedInsert a l

def stableSortByKey : List CsvRow → List CsvRow
  | [] => []
  | a :: l => orderedInsert a (stableSortByKey l)

def write_sorted_csv (channels : List CsvRow) : Option (List CsvRow) :=
  if channels.isEmpty then none else some (stableSortByKey channels)

def validate_csv_channels (inputFile : Option (List CsvRow)) (store : List CsvRow)
    (envsFor : String → Nat → AttemptEnv) (max_attempts : Nat) :
    Except String (Option (List CsvRow)) :=
  let channels := read_csv inputFile
  if channels.isEmpty then Except.ok none
  else
    let processed := read_existing_results store
    let split := splitChannels processed channels
    if split.2.isEmpty then Except.ok (write_sorted_csv split.1)
    else
      match processLoop envsFor max_attempts split.1 split.2 with
      | Except.error e => Except.error e
      | Except.ok final => Except.ok (write_sorted_csv final)

def main_run (inputFile : Option (List CsvRow)) (store : List CsvRow)
    (envsFor : String → Nat → AttemptEnv) (max_attempts : Nat) : Nat :=
  match validate_csv_channels inputFile store envsFor max_attempts with
  | Except.ok _ => 0
  | Except.error _ => 1

def controllerInvocationsFor (inputFile : Option (List CsvRow)) (store : List CsvRow)
    (u : String) : Nat :=
  (((splitChannels (read_existing_results store) (read_csv inputFile)).2).filter
    (fun c => c.username = u)).length

def keyIs (n : Nat) (c : CsvRow) : Bool := channelKey c = n

def statusIsStd (c : CsvRow) : Bool :=
  c.status = some ("valid") || c.status = some ("undefined") || c.status = some ("invalid")

def exampleRows : List CsvRow :=
  [{ username := "a1", profile_url := "u1", status := some ("invalid") },
   { username := "b1", profile_url := "u2", status := some ("valid") },
   { username := "c1", profile_url := "u3", status := some ("undefined") },
   { username := "b2", profile_url := "u4", status := some ("valid") }]

def storeRowAlice : CsvRow :=
  { username := "Alice", profile_url := "urlA", status := some ("valid") }

def inputRowAliceLower : CsvRow :=
  { username := "alice", profile_url := "urlA", status := none }

def inputRowsC4 : List CsvRow :=
  [{ username := "Alice", profile_url := "urlA", status := none },
   { username := "bob", profile_url := "urlB", status := none }]

def outRowsC4 : List CsvRow :=
  [{ username := "Alice", profile_url := "urlA", status := some ("valid") },
   { username := "bob", profile_url := "urlB", status := some ("undefined") }]

def storeC6 : List CsvRow :=
  [{ username := "old", profile_url := "urlOld", status := some ("valid") }]

def inputC6 : List CsvRow :=
  [{ username := "new", profile_url := "urlNew", status := none }]

def outC6 : List CsvRow :=
  [{ username := "new", profile_url := "urlNew", status := some ("valid") }]

theorem single_attempt_shape (env : AttemptEnv) (r : AttemptResult)
    (h : validate_tiktok_channel_single_attempt env = Except.ok r) :
    (r.rule_matched = "INVALID_RULE" ∧ r.status = "❌ INVALID" ∧ r.is_valid = some false)
    ∨ (r.rule_matched = "VALID_RULE" ∧ r.status = "✅ VALID" ∧ r.is_valid = some true)
    ∨ (r.rule_matched = "NONE" ∧ r.is_valid = none)
    ∨ (r.rule_matched = "ERROR" ∧ r.is_valid = none) := by
  rcases env with ⟨so, sm, gr, r1, r2⟩
  cases so with
  | false =>
    simp [validate_tiktok_channel_single_attempt,
      validate_tiktok_channel_single_attempt_run] at h
  | true =>
    have hb : attemptBody ⟨true, sm, gr, r1, r2⟩ = r := by
      simpa [validate_tiktok_channel_single_attempt,
        validate_tiktok_channel_single_attempt_run] using h
    subst hb
    cases gr <;> cases r1 <;> cases r2 <;>
      simp only [attemptBody, rule2Check] <;>
      first
        | (split <;>
            simp [invalidResult, validResult, noMatchResult, errorResult])
        | simp [invalidResult, validResult, noMatchResult, errorResult]

theorem single_attempt_ok_of_setup (env : AttemptEnv) (h : env.setupOk = true) :
    validate_tiktok_channel_single_attempt env = Except.ok (attemptBody env) := by
  simp [validate_tiktok_channel_single_attempt,
    validate_tiktok_channel_single_attempt_run, h]

theorem indefinite_not_definitive (e : Except String AttemptResult)
    (h : isIndefiniteOrFaulted e = true) :
    ∃ r, e = Except.ok r ∧ isDefinitiveResult r = false := by
  cases e with
  | error m => simp [isIndefiniteOrFaulted] at h
  | ok r =>
    refine ⟨r, rfl, ?_⟩
    simp [isIndefiniteOrFaulted] at h
    rcases h with h | h <;> simp [isDefinitiveResult, h]

theorem runAttempts_all_indefinite (u purl : String) (envs : Nat → AttemptEnv) :
    ∀ L : List Nat,
      (∀ a ∈ L, isIndefiniteOrFaulted (validate_tiktok_channel_single_attempt (envs a)) = true) →
      runAttempts u purl envs L = (Except.ok none, L.length)
  | [], _ => rfl
  | a :: rest, h => by
    obtain ⟨r, hr, hnd⟩ := indefinite_not_definitive _ (h a (by simp))
    have ih := runAttempts_all_indefinite u purl envs rest
      (fun b hb => h b (by simp [hb]))
    simp [runAttempts, hr, hnd, ih]

theorem runAttempts_first_definitive (u purl : String) (envs : Nat → AttemptEnv)
    (k : Nat) (L2 : List Nat) (r : AttemptResult)
    (hk : validate_tiktok_channel_single_attempt (envs k) = Except.ok r)
    (hdef : isDefinitiveResult r = true) :
    ∀ L1 : List Nat,
      (∀ a ∈ L1, isIndefiniteOrFaulted (validate_tiktok_channel_single_attempt (envs a)) = true) →
      runAttempts u purl envs (L1 ++ k :: L2) =
        (Except.ok (some (resolutionOf u purl r)), L1.length + 1)
  | [], _ => by simp [runAttempts, hk, hdef]
  | a :: rest, h => by
    obtain ⟨r0, hr0, hnd⟩ := indefinite_not_definitive _ (h a (by simp))
    have ih := runAttempts_first_definitive u purl envs k L2 r hk hdef rest
      (fun b hb => h b (by simp [hb]))
    simp [runAttempts, hr0, hnd, ih]

theorem runAttempts_ok_of_setup (u purl : String) (envs : Nat → AttemptEnv) :
    ∀ L : List Nat, (∀ a ∈ L, (envs a).setupOk = true) →
      ∃ x, (runAttempts u purl envs L).1 = Except.ok x
  | [], _ => ⟨none, rfl⟩
  | a :: rest, h => by
    have ha := single_attempt_ok_of_setup (envs a) (h a (by simp))
    obtain ⟨x, hx⟩ := runAttempts_ok_of_setup u purl envs rest
      (fun b hb => h b (by simp [hb]))
    by_cases hd : isDefinitiveResult (attemptBody (envs a)) = true
    · exact ⟨some (resolutionOf u purl (attemptBody (envs a))), by simp [runAttempts, ha, hd]⟩
    · exact ⟨x, by simp [runAttempts, ha, hd, hx]⟩

theorem runAttempts_some_inv (u purl : String) (envs : Nat → AttemptEnv) :
    ∀ L : List Nat, ∀ res : Resolution,
      (runAttempts u purl envs L).1 = Except.ok (some res) →
      ∃ a r, validate_tiktok_channel_single_attempt (envs a) = Except.ok r ∧
        isDefinitiveResult r = true ∧ res = resolutionOf u purl r
  | [], res, h => by simp [runAttempts] at h
  | a :: rest, res, h => by
    rcases he : validate_tiktok_channel_single_attempt (envs a) with e | r
    · rw [runAttempts, he] at h
      simp at h
    · rw [runAttempts, he] at h
      by_cases hd : isDefinitiveResult r = true
      · simp [hd] at h
        exact ⟨a, r, he, hd, h.symm⟩
      · simp [hd] at h
        exact runAttempts_some_inv u purl envs rest res h

/-- C1 (amended): for every max_attempts >= 1, if all of the first
max_attempts attempt outcomes are INDEFINITE or FAULTED, the Retry
Controller invokes the single-attempt probe exactly max_attempts times,
never more, and terminates RESOLVED_UNDEFINED (status undefined,
is_valid None).  The original claim constrained only the first
max_attempts - 1 outcomes, which does not force an undefined result:
see the counterexample. -/
theorem retry_exhaustion_undefined (u purl : String) (envs : Nat → AttemptEnv)
    (max_attempts : Nat) (_hmax : 1 ≤ max_attempts)
    (hall : ((List.range' 1 max_attempts).all
      (fun i => isIndefiniteOrFaulted (validate_tiktok_channel_single_attempt (envs i)))) = true) :
    (validate_tiktok_channel u purl envs max_attempts).2 = max_attempts ∧
    ∃ res, (validate_tiktok_channel u purl envs max_attempts).1 = Except.ok res ∧
      res.status = "undefined" ∧ res.is_valid = none := by
  have h := runAttempts_all_indefinite u purl envs (List.range' 1 max_attempts)
    (fun a ha => List.all_eq_true.mp hall a ha)
  refine ⟨by simp [validate_tiktok_channel, h], ?_⟩
  have hres : (validate_tiktok_channel u purl envs max_attempts).1 =
      Except.ok ({ username := u, url := purl, status := "undefined",
                   message := "No definitive result after " ++ toString max_attempts
                     ++ " attempts",
                   is_valid := none } : Resolution) := by
    simp [validate_tiktok_channel, h]
  exact ⟨_, hres, rfl, rfl⟩

/-- C1 counterexample: with max_attempts = 3 and attempt outcomes
[INDEFINITE, INDEFINITE, DEFINITIVE_PRESENT], the first
max_attempts - 1 = 2 outcomes are all indefinite, the controller makes
exactly 3 calls, yet it terminates with status valid, not undefined —
refuting the claim as stated. -/
theorem retry_exhaustion_cex :
    isIndefiniteOrFaulted (validate_tiktok_channel_single_attempt (envsC1 1)) = true ∧
    isIndefiniteOrFaulted (validate_tiktok_channel_single_attempt (envsC1 2)) = true ∧
    (validate_tiktok_channel ("acct") ("url") envsC1 3).2 = 3 ∧
    okStatus ((validate_tiktok_channel ("acct") ("url") envsC1 3).1) = some ("valid") ∧
    some ("valid") ≠ some ("undefined") := by decide

/-- C1 witness: the stub sequence [INDEFINITE, INDEFINITE, INDEFINITE]
with max_attempts = 3 makes exactly 3 probe calls and resolves
undefined/unresolved. -/
theorem retry_exhaustion_witness :
    (1 ≤ 3 ∧ ((List.range' 1 3).all
      (fun i => isIndefiniteOrFaulted
        (validate_tiktok_channel_single_attempt ((fun _ => envIndef) i)))) = true) ∧
    ((validate_tiktok_channel ("acct2") ("url2") (fun _ => envIndef) 3).2 = 3 ∧
     ∃ res, (validate_tiktok_channel ("acct2") ("url2") (fun _ => envIndef) 3).1 = Except.ok res ∧
       res.status = "undefined" ∧ res.is_valid = none) :=
  ⟨⟨by decide, by decide⟩,
    retry_exhaustion_undefined ("acct2") ("url2") (fun _ => envIndef) 3 (by decide) (by decide)⟩

theorem definitive_outcome_inv (e : Except String AttemptResult)
    (h : isDefinitiveOutcome e = true) :
    ∃ r, e = Except.ok r ∧ isDefinitiveResult r = true := by
  cases e with
  | error m => simp [isDefinitiveOutcome] at h
  | ok r => exact ⟨r, rfl, by simpa [isDefinitiveOutcome] using h⟩

theorem range'_split_at (k max_attempts : Nat) (hk1 : 1 ≤ k) (hk2 : k ≤ max_attempts) :
    List.range' 1 max_attempts =
      List.range' 1 (k - 1) ++ k :: List.range' (k + 1) (max_attempts - k) := by
  have h1 : List.range' 1 (k - 1) ++ List.range' (1 + (k - 1)) (max_attempts - (k - 1)) =
      List.range' 1 ((max_attempts - (k - 1)) + (k - 1)) := List.range'_append_1 1 (k - 1) _
  have e1 : 1 + (k - 1) = k := by omega
  have e2 : (max_attempts - (k - 1)) + (k - 1) = max_attempts := by omega
  have e3 : max_attempts - (k - 1) = (max_attempts - k) + 1 := by omega
  rw [e1, e2, e3] at h1
  rw [← h1, List.range'_succ]

/-- C2: if the attempts before attempt k are all INDEFINITE or FAULTED
and attempt k (1 <= k <= max_attempts) is the first definitive one, the
Retry Controller makes exactly k probe calls, no further attempts, and
returns a Resolution carrying that definitive status (valid for
DEFINITIVE_PRESENT, invalid for DEFINITIVE_ABSENT) and the attempt
message. -/
theorem retry_early_exit (u purl : String) (envs : Nat → AttemptEnv)
    (max_attempts k : Nat) (hk1 : 1 ≤ k) (hk2 : k ≤ max_attempts)
    (hind : ((List.range' 1 (k - 1)).all
      (fun i => isIndefiniteOrFaulted (validate_tiktok_channel_single_attempt (envs i)))) = true)
    (hdef : isDefinitiveOutcome (validate_tiktok_channel_single_attempt (envs k)) = true) :
    (validate_tiktok_channel u purl envs max_attempts).2 = k ∧
    ∃ r res, validate_tiktok_channel_single_attempt (envs k) = Except.ok r ∧
      (validate_tiktok_channel u purl envs max_attempts).1 = Except.ok res ∧
      res.message = r.message ∧
      ((res.status = "valid" ∧ res.is_valid = some true ∧ r.rule_matched = "VALID_RULE") ∨
       (res.status = "invalid" ∧ res.is_valid = some false ∧ r.rule_matched = "INVALID_RULE")) := by
  obtain ⟨r, hr, hdr⟩ := definitive_outcome_inv _ hdef
  have hrun := runAttempts_first_definitive u purl envs k
    (List.range' (k + 1) (max_attempts - k)) r hr hdr (List.range' 1 (k - 1))
    (fun a ha => List.all_eq_true.mp hind a ha)
  have hru : runAttempts u purl envs (List.range' 1 max_attempts) =
      (Except.ok (some (resolutionOf u purl r)), k) := by
    rw [range'_split_at k max_attempts hk1 hk2, hrun]
    congr 1
    simp
    omega
  refine ⟨by simp [validate_tiktok_channel, hru], ?_⟩
  refine ⟨r, resolutionOf u purl r, hr, by simp [validate_tiktok_channel, hru], rfl, ?_⟩
  rcases single_attempt_shape (envs k) r hr with h1 | h2 | h3 | h4
  · right
    refine ⟨?_, ?_, h1.1⟩
    · simp [resolutionOf, h1.2.1, status_map]
    · simp [resolutionOf, h1.2.2]
  · left
    refine ⟨?_, ?_, h2.1⟩
    · simp [resolutionOf, h2.2.1, status_map]
    · simp [resolutionOf, h2.2.2]
  · rw [isDefinitiveResult, h3.1] at hdr
    simp at hdr
  · rw [isDefinitiveResult, h4.1] at hdr
    simp at hdr

/-- C2 witness: the stub sequence
[FAULTED, INDEFINITE, DEFINITIVE_PRESENT of Acct One] with
max_attempts = 3 makes exactly 3 probe calls and returns status valid
with a message containing Acct One. -/
theorem retry_early_exit_witness :
    ((1 ≤ 3 ∧ 3 ≤ 3) ∧
     ((List.range' 1 (3 - 1)).all
       (fun i => isIndefiniteOrFaulted (validate_tiktok_channel_single_attempt (envsC2 i)))) = true ∧
     isDefinitiveOutcome (validate_tiktok_channel_single_attempt (envsC2 3)) = true) ∧
    ((validate_tiktok_channel ("acct1") ("url1") envsC2 3).2 = 3 ∧
     ∃ r res, validate_tiktok_channel_single_attempt (envsC2 3) = Except.ok r ∧
       (validate_tiktok_channel ("acct1") ("url1") envsC2 3).1 = Except.ok res ∧
       res.message = r.message ∧
       ((res.status = "valid" ∧ res.is_valid = some true ∧ r.rule_matched = "VALID_RULE") ∨
        (res.status = "invalid" ∧ res.is_valid = some false ∧ r.rule_matched = "INVALID_RULE"))) ∧
    okMessage ((validate_tiktok_channel ("acct1") ("url1") envsC2 3).1) =
      some ("Username title found: \x27Acct One\x27") ∧
    strContains ("Username title found: \x27Acct One\x27") ("Acct One") = true :=
  ⟨⟨⟨by decide, by decide⟩, by decide, by decide⟩,
   retry_early_exit ("acct1") ("url1") envsC2 3 3 (by decide) (by decide) (by decide) (by decide),
   by decide, by decide⟩

/-- C3 (amended): when driver setup succeeds on every attempt, any
exception arising during fetch, wait or inspection is caught at the
Prober boundary and converted into an outcome value, so every probe
returns a result dictionary and the Retry Controller returns a
Resolution rather than raising.  A browser-driver setup failure,
however, is raised before the try block and propagates: see the
counterexample. -/
theorem prober_absorbs_exceptions (u purl : String) (envs : Nat → AttemptEnv)
    (max_attempts : Nat)
    (hsetup : ((List.range' 1 max_attempts).all (fun i => (envs i).setupOk)) = true) :
    (∀ i ∈ List.range' 1 max_attempts,
      ∃ r, validate_tiktok_channel_single_attempt (envs i) = Except.ok r) ∧
    ∃ res, (validate_tiktok_channel u purl envs max_attempts).1 = Except.ok res := by
  have hs := List.all_eq_true.mp hsetup
  constructor
  · exact fun i hi => ⟨attemptBody (envs i), single_attempt_ok_of_setup _ (hs i hi)⟩
  · obtain ⟨x, hx⟩ := runAttempts_ok_of_setup u purl envs (List.range' 1 max_attempts)
      (fun a ha => hs a ha)
    cases x with
    | none =>
      have hres : (validate_tiktok_channel u purl envs max_attempts).1 =
          Except.ok ({ username := u, url := purl, status := "undefined",
                       message := "No definitive result after " ++ toString max_attempts
                         ++ " attempts",
                       is_valid := none } : Resolution) := by
        simp [validate_tiktok_channel, hx]
      exact ⟨_, hres⟩
    | some res =>
      exact ⟨res, by simp [validate_tiktok_channel, hx]⟩

/-- C3 counterexample: when `setup_chrome_driver` raises, the exception
escapes `validate_tiktok_channel_single_attempt` (which runs setup
before its try block) and `validate_tiktok_channel` propagates it
instead of returning a Resolution — refuting the claim that
browser-driver setup failure is converted to FAULTED. -/
theorem prober_setup_exception_cex :
    validate_tiktok_channel_single_attempt envSetupFail =
      Except.error ("chrome driver failed to start") ∧
    (validate_tiktok_channel ("u") ("p") (fun _ => envSetupFail) 3).1 =
      Except.error ("chrome driver failed to start") := ⟨rfl, rfl⟩

/-- C3 witness: with two attempts whose `driver.get` raises, every
probe call returns an ERROR outcome and the controller returns a
Resolution. -/
theorem prober_absorbs_exceptions_witness :
    ((List.range' 1 2).all (fun i => ((fun _ => envFault) i : AttemptEnv).setupOk)) = true ∧
    ((∀ i ∈ List.range' 1 2,
       ∃ r, validate_tiktok_channel_single_attempt ((fun _ => envFault) i) = Except.ok r) ∧
     ∃ res, (validate_tiktok_channel ("u") ("p") (fun _ => envFault) 2).1 = Except.ok res) :=
  ⟨by decide, prober_absorbs_exceptions ("u") ("p") (fun _ => envFault) 2 (by decide)⟩

/-- C5: whenever the absence marker is found and its text
case-insensitively contains the fixed absence phrase, the attempt is
classified DEFINITIVE_ABSENT (INVALID_RULE) and never
DEFINITIVE_PRESENT, regardless of the presence-marker state (env.rule2
is unconstrained): the absence check runs first and wins. -/
theorem absence_rule_wins (env : AttemptEnv) (t : String)
    (hs : env.setupOk = true) (hg : env.getRes = none)
    (h1 : env.rule1 = WaitRes.found t)
    (hph : strContains (strLower t) absencePhrase = true) :
    validate_tiktok_channel_single_attempt env = Except.ok (invalidResult t) ∧
    (invalidResult t).rule_matched = "INVALID_RULE" ∧
    (invalidResult t).is_valid = some false ∧
    (invalidResult t).rule_matched ≠ "VALID_RULE" ∧
    (invalidResult t).status ≠ "✅ VALID" := by
  refine ⟨?_, rfl, rfl, by simp [invalidResult], by simp [invalidResult]⟩
  rw [single_attempt_ok_of_setup env hs]
  simp [attemptBody, hg, h1, hph]

/-- C5 witness: with mixed-case absence text and a simultaneously
present presence marker, the attempt is classified INVALID_RULE, not
VALID_RULE. -/
theorem absence_rule_wins_witness :
    (envBothMarkers.setupOk = true ∧ envBothMarkers.getRes = none ∧
     envBothMarkers.rule1 = WaitRes.found ("Sorry. Couldn\x27T FIND This Account!") ∧
     strContains (strLower ("Sorry. Couldn\x27T FIND This Account!")) absencePhrase = true) ∧
    (validate_tiktok_channel_single_attempt envBothMarkers =
       Except.ok (invalidResult ("Sorry. Couldn\x27T FIND This Account!")) ∧
     (invalidResult ("Sorry. Couldn\x27T FIND This Account!")).rule_matched = "INVALID_RULE" ∧
     (invalidResult ("Sorry. Couldn\x27T FIND This Account!")).is_valid = some false ∧
     (invalidResult ("Sorry. Couldn\x27T FIND This Account!")).rule_matched ≠ "VALID_RULE" ∧
     (invalidResult ("Sorry. Couldn\x27T FIND This Account!")).status ≠ "✅ VALID") :=
  ⟨⟨rfl, rfl, rfl, by decide⟩,
   absence_rule_wins envBothMarkers ("Sorry. Couldn\x27T FIND This Account!")
     rfl rfl rfl (by decide)⟩

/-- C9: every invocation of the single-attempt probe balances its
browser sessions: the number of sessions opened equals the number
released, at most one session is opened, and whenever driver setup
succeeds the invocation opens exactly one session and releases it on
every exit path (definitive, timeout/no-match, or fault). -/
theorem session_no_leak (env : AttemptEnv) :
    (single_attempt_sessions env).count SessionEvent.opened =
      (single_attempt_sessions env).count SessionEvent.released ∧
    (single_attempt_sessions env).count SessionEvent.opened ≤ 1 ∧
    (env.setupOk = true →
      single_attempt_sessions env = [SessionEvent.opened, SessionEvent.released]) := by
  rcases env with ⟨so, sm, gr, r1, r2⟩
  cases so with
  | false =>
    refine ⟨rfl, ?_, ?_⟩
    · show (0 : Nat) ≤ 1
      decide
    · intro h
      simp at h
  | true =>
    refine ⟨rfl, ?_, fun _ => rfl⟩
    show (1 : Nat) ≤ 1
    decide

/-- C9 witness: a concrete attempt opens exactly one session and
releases it. -/
theorem session_no_leak_witness :
    (single_attempt_sessions envIndef).count SessionEvent.opened =
      (single_attempt_sessions envIndef).count SessionEvent.released ∧
    (single_attempt_sessions envIndef).count SessionEvent.opened ≤ 1 ∧
    (envIndef.setupOk = true →
      single_attempt_sessions envIndef = [SessionEvent.opened, SessionEvent.released]) :=
  session_no_leak envIndef

/-- C10: every Resolution returned by the Retry Controller keeps
is_valid consistent with status: is_valid is True exactly when status
is valid, False exactly when status is invalid, None exactly when
status is undefined, and no other status value is ever returned. -/
theorem resolution_status_consistent (u purl : String)
    (envs : Nat → AttemptEnv) (max_attempts : Nat) (res : Resolution)
    (h : (validate_tiktok_channel u purl envs max_attempts).1 = Except.ok res) :
    (res.status = "valid" ↔ res.is_valid = some true) ∧
    (res.status = "invalid" ↔ res.is_valid = some false) ∧
    (res.status = "undefined" ↔ res.is_valid = none) ∧
    (res.status = "valid" ∨ res.status = "invalid" ∨ res.status = "undefined") := by
  rcases hru : (runAttempts u purl envs (List.range' 1 max_attempts)).1 with e | o
  · simp [validate_tiktok_channel, hru] at h
  · cases o with
    | none =>
      simp [validate_tiktok_channel, hru] at h
      rw [← h]
      refine ⟨?_, ?_, ?_, ?_⟩ <;> simp
    | some r0 =>
      simp [validate_tiktok_channel, hru] at h
      obtain ⟨a, r, hr, hdr, hres⟩ := runAttempts_some_inv u purl envs _ r0 hru
      rw [← h, hres]
      rcases single_attempt_shape (envs a) r hr with h1 | h2 | h3 | h4
      · rw [resolutionOf]
        simp [h1.2.1, h1.2.2, status_map]
      · rw [resolutionOf]
        simp [h2.2.1, h2.2.2, status_map]
      · rw [isDefinitiveResult, h3.1] at hdr
        simp at hdr
      · rw [isDefinitiveResult, h4.1] at hdr
        simp at hdr

/-- C10 witness: a concrete returned Resolution with status valid has
is_valid True and satisfies the consistency properties. -/
theorem resolution_status_consistent_witness :
    ((validate_tiktok_channel ("u") ("url") (fun _ => envValidAcct) 1).1 =
       Except.ok ({ username := "u", url := "url", status := "valid",
                    message := "Username title found: \x27Acct One\x27",
                    is_valid := some true } : Resolution)) ∧
    (("valid" = "valid" ↔ some true = (some true : Option Bool)) ∧
     ("valid" = "invalid" ↔ some true = (some false : Option Bool)) ∧
     ("valid" = "undefined" ↔ some true = (none : Option Bool)) ∧
     ("valid" = "valid" ∨ "valid" = "invalid" ∨ "valid" = "undefined")) := by
  constructor
  · rfl
  · have h := resolution_status_consistent ("u") ("url") (fun _ => envValidAcct) 1
      ({ username := "u", url := "url", status := "valid",
         message := "Username title found: \x27Acct One\x27",
         is_valid := some true } : Resolution) rfl
    exact h

theorem channelKey_cases (c : CsvRow) :
    channelKey c = 1 ∨ channelKey c = 2 ∨ channelKey c = 3 := by
  unfold channelKey statusOrderKey
  split
  · exact Or.inl rfl
  · split
    · exact Or.inr (Or.inl rfl)
    · split
      · exact Or.inr (Or.inr rfl)
      · exact Or.inr (Or.inr rfl)

theorem mem_filter_keyIs {n : Nat} {l : List CsvRow} {c : CsvRow}
    (h : c ∈ l.filter (keyIs n)) : channelKey c = n := by
  have h2 := (List.mem_filter.mp h).2
  simpa [keyIs] using h2

theorem orderedInsert_perm (a : CsvRow) :
    ∀ l : List CsvRow, List.Perm (orderedInsert a l) (a :: l)
  | [] => List.Perm.refl _
  | b :: l => by
    unfold orderedInsert
    split
    · exact List.Perm.refl _
    · exact List.Perm.trans (List.Perm.cons b (orderedInsert_perm a l))
        (List.Perm.swap a b l)

theorem stableSortByKey_perm :
    ∀ l : List CsvRow, List.Perm (stableSortByKey l) l
  | [] => List.Perm.refl _
  | a :: l => by
    unfold stableSortByKey
    exact List.Perm.trans (orderedInsert_perm a (stableSortByKey l))
      (List.Perm.cons a (stableSortByKey_perm l))

theorem orderedInsert_head (a : CsvRow) (l : List CsvRow)
    (h : ∀ b ∈ l, channelKey a ≤ channelKey b) : orderedInsert a l = a :: l := by
  cases l with
  | nil => rfl
  | cons b t =>
    unfold orderedInsert
    rw [if_pos (h b (by simp))]

theorem orderedInsert_skip (a : CsvRow) :
    ∀ l1 l2 : List CsvRow, (∀ b ∈ l1, ¬(channelKey a ≤ channelKey b)) →
      orderedInsert a (l1 ++ l2) = l1 ++ orderedInsert a l2
  | [], l2, _ => rfl
  | b :: t, l2, h => by
    have hb : ¬(channelKey a ≤ channelKey b) := h b (by simp)
    have ih := orderedInsert_skip a t l2 (fun x hx => h x (by simp [hx]))
    simp only [List.cons_append, orderedInsert, if_neg hb, List.append_eq, ih]

theorem stableSortByKey_partition :
    ∀ l : List CsvRow, stableSortByKey l =
      l.filter (keyIs 1) ++ l.filter (keyIs 2) ++ l.filter (keyIs 3)
  | [] => rfl
  | a :: l => by
    have ih := stableSortByKey_partition l
    unfold stableSortByKey
    rw [ih]
    rcases channelKey_cases a with ha | ha | ha
    · have hhead : ∀ b ∈ l.filter (keyIs 1) ++ l.filter (keyIs 2) ++ l.filter (keyIs 3),
          channelKey a ≤ channelKey b := by
        intro b hb
        rw [ha]
        rcases List.mem_append.mp hb with hb1 | hb3
        · rcases List.mem_append.mp hb1 with hb1 | hb2
          · rw [mem_filter_keyIs hb1]
          · rw [mem_filter_keyIs hb2]
            omega
        · rw [mem_filter_keyIs hb3]
          omega
      rw [orderedInsert_head a _ hhead]
      simp [List.filter_cons, keyIs, ha]
    · have hskip : ∀ b ∈ l.filter (keyIs 1), ¬(channelKey a ≤ channelKey b) := by
        intro b hb
        rw [ha, mem_filter_keyIs hb]
        omega
      have hhead : ∀ b ∈ l.filter (keyIs 2) ++ l.filter (keyIs 3),
          channelKey a ≤ channelKey b := by
        intro b hb
        rw [ha]
        rcases List.mem_append.mp hb with hb2 | hb3
        · rw [mem_filter_keyIs hb2]
        · rw [mem_filter_keyIs hb3]
          omega
      rw [List.append_assoc, orderedInsert_skip a _ _ hskip,
        orderedInsert_head a _ hhead]
      simp [List.filter_cons, keyIs, ha, List.append_assoc]
    · have hskip : ∀ b ∈ l.filter (keyIs 1) ++ l.filter (keyIs 2),
          ¬(channelKey a ≤ channelKey b) := by
        intro b hb
        rw [ha]
        rcases List.mem_append.mp hb with hb1 | hb2
        · rw [mem_filter_keyIs hb1]
          omega
        · rw [mem_filter_keyIs hb2]
          omega
      have hhead : ∀ b ∈ l.filter (keyIs 3), channelKey a ≤ channelKey b := by
        intro b hb
        rw [ha, mem_filter_keyIs hb]
      rw [orderedInsert_skip a _ _ hskip, orderedInsert_head a _ hhead]
      simp [List.filter_cons, keyIs, ha]

theorem std_status_keys (c : CsvRow) (h : statusIsStd c = true) :
    keyIs 1 c = decide (c.status = some ("valid")) ∧
    keyIs 2 c = decide (c.status = some ("undefined")) ∧
    keyIs 3 c = decide (c.status = some ("invalid")) := by
  unfold statusIsStd at h
  rcases hs : c.status with _ | s
  · rw [hs] at h
    simp at h
  · rw [hs] at h
    simp at h
    rcases h with (h | h) | h <;> subst h <;>
      simp [keyIs, channelKey, statusOrderKey, hs]

/-- C7: for every non-empty record list whose statuses are among
valid, undefined and invalid, the written report is the
valid/present records first, then the undefined/unresolved ones, then
the invalid/absent ones, each group preserving the relative input order
(the filters keep input order, so the sort is stable). -/
theorem write_sorted_csv_partition (l : List CsvRow)
    (hne : l.isEmpty = false)
    (hstd : l.all statusIsStd = true) :
    write_sorted_csv l =
      some (l.filter (fun c => c.status = some ("valid")) ++
            l.filter (fun c => c.status = some ("undefined")) ++
            l.filter (fun c => c.status = some ("invalid"))) := by
  have hstd2 := List.all_eq_true.mp hstd
  unfold write_sorted_csv
  rw [hne]
  simp only [Bool.false_eq_true, if_false]
  rw [stableSortByKey_partition]
  rw [List.filter_congr (fun c hc => (std_status_keys c (hstd2 c hc)).1)]
  rw [List.filter_congr (fun c hc => (std_status_keys c (hstd2 c hc)).2.1)]
  rw [List.filter_congr (fun c hc => (std_status_keys c (hstd2 c hc)).2.2)]

/-- C7 witness: input statuses [invalid, valid, undefined, valid]
produce the output ordering [valid, valid, undefined, invalid] with
relative input order preserved inside each group. -/
theorem write_sorted_csv_partition_witness :
    (exampleRows.isEmpty = false ∧ exampleRows.all statusIsStd = true) ∧
    write_sorted_csv exampleRows =
      some (exampleRows.filter (fun c => c.status = some ("valid")) ++
            exampleRows.filter (fun c => c.status = some ("undefined")) ++
            exampleRows.filter (fun c => c.status = some ("invalid"))) ∧
    write_sorted_csv exampleRows =
      some [{ username := "b1", profile_url := "u2", status := some ("valid") },
            { username := "b2", profile_url := "u4", status := some ("valid") },
            { username := "c1", profile_url := "u3", status := some ("undefined") },
            { username := "a1", profile_url := "u1", status := some ("invalid") }] :=
  ⟨⟨rfl, rfl⟩, write_sorted_csv_partition exampleRows rfl rfl, by decide⟩

/-- C8 (amended): when the input file is missing or the input target
collection is empty, the Batch Orchestrator returns early without
writing any output and without raising, and the process exits with
code 0 (completing normally).  The original claim said the failure
propagates and the process exits non-zero: see the counterexample. -/
theorem invalid_input_exits_zero (store : List CsvRow)
    (envsFor : String → Nat → AttemptEnv) (max_attempts : Nat) :
    validate_csv_channels none store envsFor max_attempts = Except.ok none ∧
    validate_csv_channels (some []) store envsFor max_attempts = Except.ok none ∧
    main_run none store envsFor max_attempts = 0 ∧
    main_run (some []) store envsFor max_attempts = 0 :=
  ⟨rfl, rfl, rfl, rfl⟩

/-- C8 counterexample: with a missing input file (and likewise with an
empty one) the run completes normally, writes nothing, and the exit
code is 0, not non-zero — refuting the claim as stated. -/
theorem invalid_input_exit_code_cex :
    main_run none [] (fun _ _ => envIndef) 3 = 0 ∧
    main_run (some []) [] (fun _ _ => envIndef) 3 = 0 ∧
    validate_csv_channels none [] (fun _ _ => envIndef) 3 = Except.ok none ∧
    ¬(main_run none [] (fun _ _ => envIndef) 3 ≠ 0) :=
  ⟨rfl, rfl, rfl, fun h => h rfl⟩

theorem splitChannels_todo_filter (processed : String → Option CsvRow) (u : String)
    (prow : CsvRow) (hp : processed u = some prow) :
    ∀ l : List CsvRow,
      ((splitChannels processed l).2).filter (fun c => c.username = u) = []
  | [] => rfl
  | channel :: rest => by
    have ih := splitChannels_todo_filter processed u prow hp rest
    by_cases hcu : channel.username = u
    · rw [splitChannels]
      rw [hcu, hp]
      exact ih
    · rw [splitChannels]
      rcases hc : processed channel.username with _ | prow2
      · simp only [List.filter_cons]
        rw [if_neg (by simpa using hcu)]
        exact ih
      · exact ih

theorem splitChannels_all_status (processed : String → Option CsvRow) (u : String)
    (prow : CsvRow) (hp : processed u = some prow) :
    ∀ l : List CsvRow, ∀ c ∈ (splitChannels processed l).1,
      c.username = u → c.status = some (prow.status.getD (""))
  | [] => by simp [splitChannels]
  | channel :: rest => by
    intro c hc hcu
    rw [splitChannels] at hc
    rcases hch : processed channel.username with _ | prow2
    · rw [hch] at hc
      rcases List.mem_cons.mp hc with hh | ht
      · subst hh
        rw [hcu] at hch
        rw [hch] at hp
        simp at hp
      · exact splitChannels_all_status processed u prow hp rest c ht hcu
    · rw [hch] at hc
      rcases List.mem_cons.mp hc with hh | ht
      · subst hh
        simp only at hcu
        rw [hcu] at hch
        rw [hch] at hp
        injection hp with hp2
        subst hp2
        rfl
      · exact splitChannels_all_status processed u prow hp rest c ht hcu

theorem splitChannels_map_username (processed : String → Option CsvRow) :
    ∀ l : List CsvRow,
      ((splitChannels processed l).1).map (fun c => c.username) =
        l.map (fun c => c.username)
  | [] => rfl
  | channel :: rest => by
    have ih := splitChannels_map_username processed rest
    rw [splitChannels]
    rcases hch : processed channel.username with _ | prow2 <;>
      simp [ih]

theorem updateFirst_map_username (v s : String) :
    ∀ l : List CsvRow,
      (updateFirst l v s).map (fun c => c.username) = l.map (fun c => c.username)
  | [] => rfl
  | ch :: rest => by
    rw [updateFirst]
    by_cases hc : ch.username = v
    · rw [if_pos hc]
      rfl
    · rw [if_neg hc]
      simp [updateFirst_map_username v s rest]

theorem updateFirst_preserve (u v s stat : String) (hvu : v ≠ u) :
    ∀ l : List CsvRow, (∀ c ∈ l, c.username = u → c.status = some stat) →
      ∀ c ∈ updateFirst l v s, c.username = u → c.status = some stat
  | [] => by simp [updateFirst]
  | ch :: rest => by
    intro hl c hc hcu
    rw [updateFirst] at hc
    by_cases hch : ch.username = v
    · rw [if_pos hch] at hc
      rcases List.mem_cons.mp hc with hh | ht
      · subst hh
        simp only at hcu
        rw [hcu] at hch
        exact absurd hch.symm hvu
      · exact hl c (by simp [ht]) hcu
    · rw [if_neg hch] at hc
      rcases List.mem_cons.mp hc with hh | ht
      · subst hh
        exact hl c (by simp) hcu
      · exact updateFirst_preserve u v s stat hvu rest
          (fun x hx hxu => hl x (by simp [hx]) hxu) c ht hcu

theorem processLoop_map_username (envsFor : String → Nat → AttemptEnv)
    (max_attempts : Nat) :
    ∀ todo all final : List CsvRow,
      processLoop envsFor max_attempts all todo = Except.ok final →
      final.map (fun c => c.username) = all.map (fun c => c.username)
  | [], all, final, h => by
    rw [processLoop] at h
    injection h with h2
    rw [h2]
  | c :: rest, all, final, h => by
    rw [processLoop] at h
    rcases hv : (validate_tiktok_channel c.username c.profile_url
        (envsFor c.username) max_attempts).1 with e | res
    · rw [hv] at h
      exact absurd h (by simp)
    · rw [hv] at h
      rw [processLoop_map_username envsFor max_attempts rest _ final h,
        updateFirst_map_username]

theorem processLoop_preserve (envsFor : String → Nat → AttemptEnv)
    (max_attempts : Nat) (u stat : String) :
    ∀ todo all final : List CsvRow,
      todo.filter (fun c => c.username = u) = [] →
      (∀ c ∈ all, c.username = u → c.status = some stat) →
      processLoop envsFor max_attempts all todo = Except.ok final →
      ∀ c ∈ final, c.username = u → c.status = some stat
  | [], all, final, _, hall, h => by
    rw [processLoop] at h
    injection h with h2
    rw [← h2]
    exact hall
  | c :: rest, all, final, hfil, hall, h => by
    have hcut : (decide (c.username = u) = false) ∧
        rest.filter (fun x => x.username = u) = [] := by
      by_cases hc : decide (c.username = u) = true
      · rw [List.filter_cons, if_pos hc] at hfil
        simp at hfil
      · rw [List.filter_cons] at hfil
        rw [if_neg hc] at hfil
        exact ⟨by simpa using hc, hfil⟩
    have hcu : c.username ≠ u := by simpa using hcut.1
    rw [processLoop] at h
    rcases hv : (validate_tiktok_channel c.username c.profile_url
        (envsFor c.username) max_attempts).1 with e | res
    · rw [hv] at h
      exact absurd h (by simp)
    · rw [hv] at h
      exact processLoop_preserve envsFor max_attempts u stat rest _ final hcut.2
        (updateFirst_preserve u c.username res.status stat hcu all hall) h

theorem countP_username_of_map_eq (u : String) (l1 l2 : List CsvRow)
    (h : l1.map (fun c => c.username) = l2.map (fun c => c.username)) :
    l1.countP (fun c => c.username = u) = l2.countP (fun c => c.username = u) := by
  have h1 := List.countP_map (fun s => decide (s = u)) (fun c : CsvRow => c.username) l1
  have h2 := List.countP_map (fun s => decide (s = u)) (fun c : CsvRow => c.username) l2
  have h3 : l1.countP (fun c => c.username = u) =
      (l1.map (fun c => c.username)).countP (fun s => s = u) := h1.symm
  have h4 : l2.countP (fun c => c.username = u) =
      (l2.map (fun c => c.username)).countP (fun s => s = u) := h2.symm
  rw [h3, h4, h]

theorem write_sorted_csv_some (l out : List CsvRow)
    (h : write_sorted_csv l = some out) : out = stableSortByKey l := by
  unfold write_sorted_csv at h
  by_cases he : l.isEmpty
  · rw [if_pos he] at h
    exact absurd h (by simp)
  · rw [if_neg he] at h
    injection h with h2
    exact h2.symm

theorem validate_csv_channels_inv (inputFile : Option (List CsvRow)) (store : List CsvRow)
    (envsFor : String → Nat → AttemptEnv) (max_attempts : Nat) (out : List CsvRow)
    (h : validate_csv_channels inputFile store envsFor max_attempts = Except.ok (some out)) :
    ∃ final : List CsvRow,
      out = stableSortByKey final ∧
      ((final = (splitChannels (read_existing_results store) (read_csv inputFile)).1) ∨
       processLoop envsFor max_attempts
         (splitChannels (read_existing_results store) (read_csv inputFile)).1
         (splitChannels (read_existing_results store) (read_csv inputFile)).2 =
           Except.ok final) := by
  simp only [validate_csv_channels] at h
  by_cases hc : (read_csv inputFile).isEmpty
  · rw [if_pos hc] at h
    exact absurd h (by simp)
  · rw [if_neg hc] at h
    by_cases ht : ((splitChannels (read_existing_results store) (read_csv inputFile)).2).isEmpty
    · rw [if_pos ht] at h
      injection h with h2
      exact ⟨_, write_sorted_csv_some _ out h2, Or.inl rfl⟩
    · rw [if_neg ht] at h
      rcases hp : processLoop envsFor max_attempts
          (splitChannels (read_existing_results store) (read_csv inputFile)).1
          (splitChannels (read_existing_results store) (read_csv inputFile)).2 with e | final
      · rw [hp] at h
        exact absurd h (by simp)
      · rw [hp] at h
        injection h with h2
        exact ⟨final, write_sorted_csv_some _ out h2, Or.inr rfl⟩

theorem batch_final_map_username (inputFile : Option (List CsvRow)) (store : List CsvRow)
    (envsFor : String → Nat → AttemptEnv) (max_attempts : Nat) (final : List CsvRow)
    (hcase : (final = (splitChannels (read_existing_results store) (read_csv inputFile)).1) ∨
      processLoop envsFor max_attempts
        (splitChannels (read_existing_results store) (read_csv inputFile)).1
        (splitChannels (read_existing_results store) (read_csv inputFile)).2 =
          Except.ok final) :
    final.map (fun c => c.username) = (read_csv inputFile).map (fun c => c.username) := by
  rcases hcase with hfeq | hloop
  · rw [hfeq, splitChannels_map_username]
  · rw [processLoop_map_username envsFor max_attempts _ _ final hloop,
      splitChannels_map_username]

/-- C4 (amended): for every identifier present in the Batch Record
Store with a non-empty status, where identifiers are matched
case-sensitively (exact string equality, as the code does), a
subsequent batch run makes zero Retry Controller invocations for it and
carries its stored status into the output unchanged, for as many rows
as the input contains for that identifier.  The original claim said the
match is case-insensitive: see the counterexample. -/
theorem skip_preserves_stored_status (inputFile : Option (List CsvRow))
    (store : List CsvRow) (envsFor : String → Nat → AttemptEnv) (max_attempts : Nat)
    (u s : String) (prow : CsvRow)
    (hp : read_existing_results store u = some prow)
    (hps : prow.status = some s) (_hsne : s ≠ "") :
    controllerInvocationsFor inputFile store u = 0 ∧
    ∀ out : List CsvRow,
      validate_csv_channels inputFile store envsFor max_attempts = Except.ok (some out) →
      (∀ c ∈ out, c.username = u → c.status = some s) ∧
      out.countP (fun c => c.username = u) =
        (read_csv inputFile).countP (fun c => c.username = u) := by
  have hfil := splitChannels_todo_filter (read_existing_results store) u prow hp
    (read_csv inputFile)
  constructor
  · unfold controllerInvocationsFor
    rw [hfil]
    rfl
  · intro out hout
    obtain ⟨final, hsort, hcase⟩ :=
      validate_csv_channels_inv inputFile store envsFor max_attempts out hout
    have hstat1 : ∀ c ∈ (splitChannels (read_existing_results store)
        (read_csv inputFile)).1, c.username = u → c.status = some s := by
      intro c hc hcu
      have hh := splitChannels_all_status (read_existing_results store) u prow hp
        (read_csv inputFile) c hc hcu
      rw [hps] at hh
      simpa using hh
    have hstatF : ∀ c ∈ final, c.username = u → c.status = some s := by
      rcases hcase with hfeq | hloop
      · rw [hfeq]
        exact hstat1
      · exact processLoop_preserve envsFor max_attempts u s _ _ final hfil hstat1 hloop
    have hmapF := batch_final_map_username inputFile store envsFor max_attempts final hcase
    constructor
    · intro c hc hcu
      have hmem : c ∈ final := (stableSortByKey_perm final).mem_iff.mp (hsort ▸ hc)
      exact hstatF c hmem hcu
    · rw [hsort, (stableSortByKey_perm final).countP_eq]
      exact countP_username_of_map_eq u final _ hmapF

/-- C6 (amended): the written output consists exactly of the records
of the current input target list (its identifiers, with multiplicity):
records of the prior Batch Record Store whose identifier does not occur
in the current input are dropped by the full-file rewrite, not merged.
For identifiers in both store (with non-empty status) and input, the
stored status is reused, so no newly computed entry exists to win a
conflict.  The original claim said untouched previous records still
appear in the output: see the counterexample. -/
theorem full_rewrite_output_usernames (inputFile : Option (List CsvRow))
    (store : List CsvRow) (envsFor : String → Nat → AttemptEnv) (max_attempts : Nat)
    (out : List CsvRow)
    (h : validate_csv_channels inputFile store envsFor max_attempts =
      Except.ok (some out)) :
    List.Perm (out.map (fun c => c.username))
      ((read_csv inputFile).map (fun c => c.username)) := by
  obtain ⟨final, hsort, hcase⟩ :=
    validate_csv_channels_inv inputFile store envsFor max_attempts out h
  rw [hsort]
  have hperm := (stableSortByKey_perm final).map (fun c => c.username)
  rw [batch_final_map_username inputFile store envsFor max_attempts final hcase] at hperm
  exact hperm

/-- C4 counterexample: the store holds identifier Alice with non-empty
status valid, the input holds alice, and the two agree up to case; yet
the batch run makes one Retry Controller invocation for alice —
refuting the claimed case-insensitive matching. -/
theorem case_insensitive_skip_cex :
    strLower ("Alice") = strLower ("alice") ∧
    rowStatusNonEmpty storeRowAlice = true ∧
    controllerInvocationsFor (some [inputRowAliceLower]) [storeRowAlice] ("alice") = 1 ∧
    (1 : Nat) ≠ 0 := by decide

/-- C4 witness: with Alice stored as valid and an input of Alice and
bob, the run makes zero controller invocations for Alice, every output
row for Alice keeps status valid, and Alice occurs in the output as
often as in the input. -/
theorem skip_preserves_stored_status_witness :
    (read_existing_results [storeRowAlice] ("Alice") = some storeRowAlice ∧
     storeRowAlice.status = some ("valid") ∧ "valid" ≠ "") ∧
    controllerInvocationsFor (some inputRowsC4) [storeRowAlice] ("Alice") = 0 ∧
    validate_csv_channels (some inputRowsC4) [storeRowAlice]
      (fun _ _ => envIndef) 1 = Except.ok (some outRowsC4) ∧
    (∀ c ∈ outRowsC4, c.username = "Alice" → c.status = some ("valid")) ∧
    outRowsC4.countP (fun c => c.username = "Alice") =
      (read_csv (some inputRowsC4)).countP (fun c => c.username = "Alice") := by
  have h := skip_preserves_stored_status (some inputRowsC4) [storeRowAlice]
    (fun _ _ => envIndef) 1 ("Alice") ("valid") storeRowAlice rfl rfl (by decide)
  exact ⟨⟨rfl, rfl, by decide⟩, h.1, rfl, (h.2 outRowsC4 rfl).1, (h.2 outRowsC4 rfl).2⟩

/-- C6 counterexample: the prior store holds identifier old (with a
non-empty status) and the input holds only new; after the run the
written output contains new and no row for old — the untouched previous
record was dropped, refuting the claimed merge. -/
theorem merge_untouched_records_cex :
    validate_csv_channels (some inputC6) storeC6 (fun _ _ => envValidAcct) 1 =
      Except.ok (some outC6) ∧
    storeC6.countP (fun c => c.username = "old") = 1 ∧
    storeC6.all rowStatusNonEmpty = true ∧
    outC6.countP (fun c => c.username = "old") = 0 :=
  ⟨rfl, by decide, by decide, by decide⟩

/-- C6 witness: the concrete run writes exactly the input record set,
whose identifier list is a permutation of the input identifier list. -/
theorem full_rewrite_output_usernames_witness :
    validate_csv_channels (some inputC6) storeC6 (fun _ _ => envValidAcct) 1 =
      Except.ok (some outC6) ∧
    List.Perm (outC6.map (fun c => c.username))
      ((read_csv (some inputC6)).map (fun c => c.username)) :=
  ⟨rfl, full_rewrite_output_usernames (some inputC6) storeC6
    (fun _ _ => envValidAcct) 1 outC6 rfl⟩
